import Mathlib

/-!
# Verification of the build_tools toolchain classifier and bwrap reconciliation

Shallow embedding of the core of the vub-hpc/build_tools repository:

* `set_toolchain_generation` (src/build_tools/softinstall.py) and
  `calc_tc_gen_subdir` (src/build_tools/hooks_hydra.py): the toolchain
  generation classifier.  The generation membership tables are computed at
  runtime from EasyBuild's `get_toolchain_hierarchy` (an external
  collaborator), so the Lean functions are parameterized by the table; the
  declared generation lists (`SUPPORTED_TCGENS`, `VALID_TOOLCHAINS`) are
  embedded concretely as well.
* `mk_job_name` (src/build_tools/softinstall.py).
* the fetch-lock acquisition loop of `acquire_fetch_lock`
  (src/build_tools/hooks_hydra.py).
* the host/partition placement logic of bin/submit_build.py together with
  the static `ARCHS`/`PARTITIONS` tables of src/build_tools/clusters.py.
* the phase-2 reconciliation shell scripts: the script string built by
  `rsync_copy` (src/build_tools/bwraptools.py) and the inline bwrap block of
  the `BUILD_JOB` template (src/build_tools/jobtemplate.py), modelled as
  command lists with a sequential interpreter over an abstract filesystem
  state.
-/

/-- A toolchain name/version pair, as the dicts produced by EasyBuild's
`get_toolchain_hierarchy` (keys `name` and `version`). -/
structure TCPair where
  name : String
  version : String
deriving DecidableEq, Repr

/-- The fields of a parsed easyconfig that `set_toolchain_generation` reads
from `EasyConfigParser.get_config_dict()`: `toolchain`, `name`, `version` and
`easyblock` (the latter via `config_dict.get('easyblock', '')`, so the field
holds `""` when the easyconfig declares no easyblock). -/
structure EasyConfig where
  name : String
  version : String
  toolchain : TCPair
  easyblock : String
deriving DecidableEq, Repr

/-- Python truthiness of an optional string argument (`if tc_gen:` /
`if host_arch:`): `None` and the empty string are falsy. -/
def pyTruthy : Option String → Bool
  | none => false
  | some s => !s.isEmpty

/-- `SUPPORTED_TCGENS` of src/build_tools/softinstall.py, in declared order. -/
def SUPPORTED_TCGENS : List String := ["2022a", "2023a"]

/-- `SUPPORTED_TCS` of src/build_tools/softinstall.py. -/
def SUPPORTED_TCS : List String := ["foss", "intel", "gomkl", "gimkl", "gimpi"]

/-- Python's string comparison `a <= b`: lexicographic on code points. -/
def charListLe : List Char → List Char → Bool
  | [], _ => true
  | _ :: _, [] => false
  | a :: as, b :: bs =>
    if a.toNat < b.toNat then true
    else if b.toNat < a.toNat then false
    else charListLe as bs

/-- Insert into an ascending list, keeping equal elements stable. -/
def orderedInsertStr (a : String) : List String → List String
  | [] => [a]
  | b :: bs => if charListLe a.data b.data then a :: b :: bs else b :: orderedInsertStr a bs

/-- Python's `sorted` on a list of strings: stable ascending lexicographic
sort (any stable sort computes the same list as timsort). -/
def pySorted : List String → List String
  | [] => []
  | a :: as => orderedInsertStr a (pySorted as)

/-- Python's `sorted(l)[-1]` (softinstall.py line 111).  Empty input is
mapped to `""` (Python would raise `IndexError`; `SUPPORTED_TCGENS` is
never empty). -/
def pySortedLast (l : List String) : String :=
  (pySorted l).getLastD ""

/-- Whether one of the two membership tests of softinstall.py line 90 matches
generation `g`: `toolchain in SUPPORTED_FULL_TCS[toolcgen] or name_version in
SUPPORTED_FULL_TCS[toolcgen]`. -/
def genMatches (fullTCs : String → List TCPair) (ec : EasyConfig) (g : String) : Bool :=
  decide (ec.toolchain ∈ fullTCs g) || decide ((⟨ec.name, ec.version⟩ : TCPair) ∈ fullTCs g)

/-- Whether one of the name-only membership tests of softinstall.py line 97
matches generation `g`: `toolchain['name'] in tcnames or name in tcnames`
where `tcnames = [x['name'] for x in SUPPORTED_FULL_TCS[toolcgen]]`. -/
def genNameMatches (fullTCs : String → List TCPair) (ec : EasyConfig) (g : String) : Bool :=
  decide (ec.toolchain.name ∈ (fullTCs g).map TCPair.name)
    || decide (ec.name ∈ (fullTCs g).map TCPair.name)

/-- `set_toolchain_generation` of src/build_tools/softinstall.py.

`gens` embeds `SUPPORTED_TCGENS` (declared order) and `fullTCs` embeds the
lazily computed `SUPPORTED_FULL_TCS` membership table (built from EasyBuild's
toolchain hierarchy query, external to this repository).  The easyconfig
argument is the already-parsed record (`det_easyconfig_paths` /
`EasyConfigParser` are external I/O).  `False` is modelled as `none`.

The Python `for` loops with early `return` are modelled with `List.find?`. -/
def set_toolchain_generation (gens : List String) (fullTCs : String → List TCPair)
    (ec : EasyConfig) (tc_gen : Option String) : Option String :=
  if pyTruthy tc_gen then
    -- `if tc_gen in SUPPORTED_TCGENS: return tc_gen` else log error, `return False`
    if tc_gen.getD "" ∈ gens then some (tc_gen.getD "") else none
  else
    -- (software with) supported (sub)toolchain and version
    match gens.find? (genMatches fullTCs ec) with
    | some toolcgen => some toolcgen
    | none =>
      -- (software with) supported (sub)toolchain but unsupported version
      match gens.find? (genNameMatches fullTCs ec) with
      | some _ => none
      | none =>
        -- unsupported toolchains: all toolchains have the Toolchain easyblock
        if ec.easyblock = "Toolchain" then none
        -- software with system toolchain: install in latest generation
        else if ec.toolchain.name = "system" then some (pySortedLast gens)
        else none

/-- One generation entry of the `tc_versions` table built by
`get_tc_versions` (src/build_tools/hooks_hydra.py): the expanded
(sub)toolchain-version list and the module subdir of the generation. -/
structure TCGenSpec where
  toolchains : List TCPair
  subdir : String
deriving DecidableEq, Repr

/-- The branch taken by `calc_tc_gen_subdir`, standing for the distinct
`log_msg` strings it formats (the Python messages interpolate the whole
`software` list; only their identity matters here). -/
inductive CalcMsg where
  | determinedSubdir (subdir : String)
  | invalidToolchainDef (name : String)
  | determinedSystem
  | invalidToolchain (tcname tcversion : String)
deriving DecidableEq, Repr

/-- Whether one of the two membership tests of hooks_hydra.py line 174
matches a `tc_versions` entry. -/
def entryMatches (name version tcname tcversion : String) (e : String × TCGenSpec) : Bool :=
  decide ((⟨tcname, tcversion⟩ : TCPair) ∈ e.2.toolchains)
    || decide ((⟨name, version⟩ : TCPair) ∈ e.2.toolchains)

/-- `calc_tc_gen_subdir` of src/build_tools/hooks_hydra.py.

`tc_versions` embeds the ordered dict built by `get_tc_versions` from
`VALID_TOOLCHAINS` (dict iteration preserves the declared insertion order).
Returns the pair (subdir-or-`False`, log message), with `False` as `none`. -/
def calc_tc_gen_subdir (tc_versions : List (String × TCGenSpec))
    (name version tcname tcversion easyblock : String) : Option String × CalcMsg :=
  match tc_versions.find? (entryMatches name version tcname tcversion) with
  | some e => (some e.2.subdir, .determinedSubdir e.2.subdir)
  | none =>
    -- invalid toolchains: all toolchains have the 'Toolchain' easyblock
    if easyblock = "Toolchain" then (none, .invalidToolchainDef name)
    -- software with 'system' toolchain: return 'system'
    else if tcname = "system" then (some "system", .determinedSystem)
    else (none, .invalidToolchain tcname tcversion)

/-- `VALID_TOOLCHAINS` of src/build_tools/hooks_hydra.py: generation label,
toolchain names to expand, and module subdir, in declared order.  (The
expansion into version pairs happens at runtime via EasyBuild.) -/
def VALID_TOOLCHAINS : List (String × List String × String) :=
  [("2024a", (["foss", "intel", "gomkl", "gimkl", "gimpi"], "2024a")),
   ("25.1", (["nvidia-compilers", "NVHPC"], "2024a"))]

section FindLemmas

variable {α : Type _} (p : α → Bool)

/-- `List.find?` returns the head of the suffix after a fully non-matching
prefix: the "first match wins" shape of the classifier loops. -/
theorem find?_first_of_prefix (l₁ l₂ : List α) (a : α) (ha : p a = true)
    (h : ∀ x ∈ l₁, p x = false) : (l₁ ++ a :: l₂).find? p = some a := by
  induction l₁ with
  | nil => simp [List.find?, ha]
  | cons b l ih =>
    have hb : p b = false := h b (by simp)
    simp only [List.cons_append, List.find?, hb]
    exact ih fun x hx => h x (by simp [hx])

end FindLemmas

/-! ## Claims C1, C2, C6, C10: the toolchain classifier -/

/-- C1: for every package specification whose toolchain pair or name/version
pair appears in the toolchain set of at least one generation, the classifier
returns the first generation, in the declared order of the generation table,
whose set contains either pair.  Part one states this for
`set_toolchain_generation` (which returns the generation label itself), part
two for `calc_tc_gen_subdir` (which returns the subdir of the first matching
generation entry), part three specializes to a pair present in exactly one
configured generation's set, which yields that generation. -/
theorem claim_C1_first_generation_wins
    (gens l₁ l₂ : List String) (g : String) (fullTCs : String → List TCPair) (ec : EasyConfig)
    (tbl tl₁ tl₂ : List (String × TCGenSpec)) (e : String × TCGenSpec) (n v tn tv eb : String)
    (gens₂ : List String) (g₂ : String) (fullTCs₂ : String → List TCPair) (ec₂ : EasyConfig)
    (hsplit : gens = l₁ ++ g :: l₂)
    (hg : genMatches fullTCs ec g = true)
    (hpre : ∀ g' ∈ l₁, genMatches fullTCs ec g' = false)
    (htsplit : tbl = tl₁ ++ e :: tl₂)
    (he : entryMatches n v tn tv e = true)
    (htpre : ∀ e' ∈ tl₁, entryMatches n v tn tv e' = false)
    (hmem : g₂ ∈ gens₂)
    (hm : genMatches fullTCs₂ ec₂ g₂ = true)
    (huniq : ∀ g' ∈ gens₂, g' ≠ g₂ → genMatches fullTCs₂ ec₂ g' = false) :
    set_toolchain_generation gens fullTCs ec none = some g
      ∧ (calc_tc_gen_subdir tbl n v tn tv eb).1 = some e.2.subdir
      ∧ set_toolchain_generation gens₂ fullTCs₂ ec₂ none = some g₂ := by
  refine ⟨?_, ?_, ?_⟩
  · have hfind : gens.find? (genMatches fullTCs ec) = some g := by
      rw [hsplit]; exact find?_first_of_prefix _ l₁ l₂ g hg hpre
    simp [set_toolchain_generation, pyTruthy, hfind]
  · have hfind : tbl.find? (entryMatches n v tn tv) = some e := by
      rw [htsplit]; exact find?_first_of_prefix _ tl₁ tl₂ e he htpre
    simp [calc_tc_gen_subdir, hfind]
  · obtain ⟨b, hb⟩ : ∃ b, gens₂.find? (genMatches fullTCs₂ ec₂) = some b := by
      cases hfo : gens₂.find? (genMatches fullTCs₂ ec₂) with
      | none => exact absurd hm (by simpa using List.find?_eq_none.1 hfo g₂ hmem)
      | some b => exact ⟨b, rfl⟩
    have hpb : genMatches fullTCs₂ ec₂ b = true := List.find?_some hb
    have hbmem : b ∈ gens₂ := List.mem_of_find?_eq_some hb
    have hbg : b = g₂ := by
      by_contra hne
      exact absurd hpb (by simp [huniq b hbmem hne])
    subst hbg
    simp [set_toolchain_generation, pyTruthy, hb]

/-- Generation membership table used by the classifier witnesses (a concrete
stand-in for the externally computed `SUPPORTED_FULL_TCS`). -/
def wFullTCs : String → List TCPair := fun g =>
  if g = "2022a" then [⟨"GCCcore", "11.3.0"⟩, ⟨"foss", "2022a"⟩]
  else if g = "2023a" then [⟨"GCCcore", "12.3.0"⟩, ⟨"foss", "2023a"⟩]
  else []

/-- Concrete `tc_versions` table used by the classifier witnesses (the
declared `VALID_TOOLCHAINS` shape of hooks_hydra.py, with an example
expansion of each generation). -/
def wTable : List (String × TCGenSpec) :=
  [("2024a", ⟨[⟨"foss", "2024a"⟩, ⟨"GCCcore", "13.3.0"⟩], "2024a"⟩),
   ("25.1", ⟨[⟨"nvidia-compilers", "25.1"⟩], "2024a"⟩)]

/-- Witness for C1: `R-4.3.2-gfbf-2023a` (toolchain `foss/2023a` matching only
the second declared generation) classifies to `2023a`; a package with
toolchain `nvidia-compilers/25.1` gets the subdir of the `25.1` entry; and
`GCCcore-11.3.0` (present in exactly the `2022a` set) yields `2022a`. -/
theorem claim_C1_first_generation_wins_witness :
    set_toolchain_generation ["2022a", "2023a"] wFullTCs
        ⟨"R", "4.3.2", ⟨"foss", "2023a"⟩, ""⟩ none = some "2023a"
      ∧ (calc_tc_gen_subdir wTable "STREAM" "5.10" "nvidia-compilers" "25.1" "MakeCp").1 =
          some "2024a"
      ∧ set_toolchain_generation ["2022a", "2023a"] wFullTCs
          ⟨"GCCcore", "11.3.0", ⟨"system", "system"⟩, "Toolchain"⟩ none = some "2022a" :=
  claim_C1_first_generation_wins
    ["2022a", "2023a"] ["2022a"] [] "2023a" wFullTCs ⟨"R", "4.3.2", ⟨"foss", "2023a"⟩, ""⟩
    wTable [("2024a", ⟨[⟨"foss", "2024a"⟩, ⟨"GCCcore", "13.3.0"⟩], "2024a"⟩)] []
    ("25.1", ⟨[⟨"nvidia-compilers", "25.1"⟩], "2024a"⟩) "STREAM" "5.10" "nvidia-compilers" "25.1"
    "MakeCp" ["2022a", "2023a"] "2022a" wFullTCs
    ⟨"GCCcore", "11.3.0", ⟨"system", "system"⟩, "Toolchain"⟩
    rfl (by decide) (by decide) rfl (by decide) (by decide) (by decide) (by decide) (by decide)

/-- Counterexample to C2 as frozen: a `GCCcore-9.3.0` package specification
satisfies every condition of the claim — `system` toolchain name, an
easyblock that is not the `Toolchain` sentinel, and neither its
{toolchainName, toolchainVersion} pair nor its {name, version} pair in any
generation's toolchain set — yet `set_toolchain_generation` returns `False`
(`none`) instead of succeeding with the system/latest generation: the
unsupported-version loop of softinstall.py lines 95-100 rejects any package
whose *name* matches a supported toolchain name (here `GCCcore`) before the
system-toolchain branch is reached. -/
theorem claim_C2_counterexample_name_loop_rejects :
    (⟨"GCCcore", "9.3.0", ⟨"system", "system"⟩, "ConfigureMake"⟩ : EasyConfig).toolchain.name =
        "system"
      ∧ (⟨"GCCcore", "9.3.0", ⟨"system", "system"⟩, "ConfigureMake"⟩ : EasyConfig).easyblock ≠
          "Toolchain"
      ∧ (∀ g ∈ ["2022a", "2023a"],
          genMatches wFullTCs ⟨"GCCcore", "9.3.0", ⟨"system", "system"⟩, "ConfigureMake"⟩ g =
            false)
      ∧ genNameMatches wFullTCs
          ⟨"GCCcore", "9.3.0", ⟨"system", "system"⟩, "ConfigureMake"⟩ "2022a" = true
      ∧ set_toolchain_generation ["2022a", "2023a"] wFullTCs
          ⟨"GCCcore", "9.3.0", ⟨"system", "system"⟩, "ConfigureMake"⟩ none = none := by
  decide

/-- C2 as amended: a package specification with the `system` toolchain name,
an easyblock that is not the `Toolchain` sentinel, and no membership match
in any generation entry is classified as the sentinel generation `system` by
`calc_tc_gen_subdir` (to be resolved by the caller), not as a failure.
`set_toolchain_generation` succeeds under the same conditions — resolving
the package directly to the latest (lexicographically last) supported
generation — provided additionally that neither the package name nor its
toolchain name matches a supported toolchain name of any generation
(otherwise its unsupported-version loop, softinstall.py lines 95-100,
returns `False` first, as the counterexample above shows). -/
theorem claim_C2_system_toolchain_sentinel
    (tbl : List (String × TCGenSpec)) (n v tv eb : String)
    (gens : List String) (fullTCs : String → List TCPair) (ec : EasyConfig)
    (hnomatch : ∀ e ∈ tbl, entryMatches n v "system" tv e = false)
    (heb : eb ≠ "Toolchain")
    (hnm : ∀ g ∈ gens, genMatches fullTCs ec g = false)
    (hnn : ∀ g ∈ gens, genNameMatches fullTCs ec g = false)
    (heb' : ec.easyblock ≠ "Toolchain")
    (hsys : ec.toolchain.name = "system") :
    calc_tc_gen_subdir tbl n v "system" tv eb = (some "system", .determinedSystem)
      ∧ set_toolchain_generation gens fullTCs ec none = some (pySortedLast gens) := by
  constructor
  · have hfind : tbl.find? (entryMatches n v "system" tv) = none :=
      List.find?_eq_none.2 fun e he => by simp [hnomatch e he]
    simp [calc_tc_gen_subdir, hfind, heb]
  · have hfind : gens.find? (genMatches fullTCs ec) = none :=
      List.find?_eq_none.2 fun g hg => by simp [hnm g hg]
    have hfind' : gens.find? (genNameMatches fullTCs ec) = none :=
      List.find?_eq_none.2 fun g hg => by simp [hnn g hg]
    simp [set_toolchain_generation, pyTruthy, hfind, hfind', heb', hsys]

/-- Witness for the amended C2: `zlib-1.2.11` with the `system` toolchain
and a non-`Toolchain` easyblock (its name matching no supported toolchain
name) is classified as `system` by `calc_tc_gen_subdir` and as the latest
supported generation (`2023a`) by `set_toolchain_generation`. -/
theorem claim_C2_system_toolchain_sentinel_witness :
    calc_tc_gen_subdir wTable "zlib" "1.2.11" "system" "system" "ConfigureMake" =
        (some "system", .determinedSystem)
      ∧ set_toolchain_generation ["2022a", "2023a"] wFullTCs
          ⟨"zlib", "1.2.11", ⟨"system", "system"⟩, "ConfigureMake"⟩ none = some "2023a" := by
  have h := claim_C2_system_toolchain_sentinel wTable "zlib" "1.2.11" "system" "ConfigureMake"
    ["2022a", "2023a"] wFullTCs ⟨"zlib", "1.2.11", ⟨"system", "system"⟩, "ConfigureMake"⟩
    (by decide) (by decide) (by decide) (by decide) (by decide) rfl
  exact ⟨h.1, h.2.trans (by decide)⟩

/-- C6: a package specification whose easyblock is the `Toolchain` sentinel
and whose toolchain pair and name/version pair appear in no generation's
toolchain set is classified as a failure (`False`, modelled `none`) by both
`set_toolchain_generation` and `calc_tc_gen_subdir`; in particular it never
falls through to the `system` generation. -/
theorem claim_C6_unknown_toolchain_fails
    (gens : List String) (fullTCs : String → List TCPair) (ec : EasyConfig)
    (tbl : List (String × TCGenSpec)) (n v tn tv : String)
    (h1 : ∀ g ∈ gens, genMatches fullTCs ec g = false)
    (h2 : ec.easyblock = "Toolchain")
    (h3 : ∀ e ∈ tbl, entryMatches n v tn tv e = false) :
    set_toolchain_generation gens fullTCs ec none = none
      ∧ (calc_tc_gen_subdir tbl n v tn tv "Toolchain").1 = none := by
  constructor
  · have hfind : gens.find? (genMatches fullTCs ec) = none :=
      List.find?_eq_none.2 fun g hg => by simp [h1 g hg]
    cases hfn : gens.find? (genNameMatches fullTCs ec) with
    | none => simp [set_toolchain_generation, pyTruthy, hfind, hfn, h2]
    | some g => simp [set_toolchain_generation, pyTruthy, hfind, hfn]
  · have hfind : tbl.find? (entryMatches n v tn tv) = none :=
      List.find?_eq_none.2 fun e he => by simp [h3 e he]
    simp [calc_tc_gen_subdir, hfind]

/-- Witness for C6: `fosscuda-2020b` (a toolchain definition absent from
every generation set) fails classification in both functions. -/
theorem claim_C6_unknown_toolchain_fails_witness :
    set_toolchain_generation ["2022a", "2023a"] wFullTCs
        ⟨"fosscuda", "2020b", ⟨"system", "system"⟩, "Toolchain"⟩ none = none
      ∧ (calc_tc_gen_subdir wTable "fosscuda" "2020b" "system" "system" "Toolchain").1 = none :=
  claim_C6_unknown_toolchain_fails ["2022a", "2023a"] wFullTCs
    ⟨"fosscuda", "2020b", ⟨"system", "system"⟩, "Toolchain"⟩ wTable
    "fosscuda" "2020b" "system" "system" (by decide) rfl (by decide)

/-- C10: a (truthy) toolchain-generation override short-circuits
classification.  A supported override is returned unchanged, an unsupported
one yields failure, and in both cases the result is independent of the
easyconfig and of the membership table. -/
theorem claim_C10_override_short_circuits
    (gens : List String) (fullTCs fullTCs' : String → List TCPair)
    (ec ec' : EasyConfig) (g : String) (hg : g ≠ "") :
    (g ∈ gens → set_toolchain_generation gens fullTCs ec (some g) = some g)
      ∧ (g ∉ gens → set_toolchain_generation gens fullTCs ec (some g) = none)
      ∧ set_toolchain_generation gens fullTCs ec (some g) =
          set_toolchain_generation gens fullTCs' ec' (some g) := by
  have hne : g.isEmpty = false := by
    cases hie : g.isEmpty
    · rfl
    · exact absurd ((String.isEmpty_iff g).mp hie) hg
  have htruthy : pyTruthy (some g) = true := by
    simp [pyTruthy, hne]
  refine ⟨fun hmem => ?_, fun hnmem => ?_, ?_⟩
  · simp [set_toolchain_generation, htruthy, hmem]
  · simp [set_toolchain_generation, htruthy, hnmem]
  · by_cases hmem : g ∈ gens <;>
      simp [set_toolchain_generation, htruthy, hmem]

/-- Witness for C10: the supported override `2023a` is returned for two
different easyconfigs and tables, and the unsupported override `2021b`
yields failure. -/
theorem claim_C10_override_short_circuits_witness :
    (set_toolchain_generation ["2022a", "2023a"] wFullTCs
        ⟨"GCCcore", "11.3.0", ⟨"system", "system"⟩, "Toolchain"⟩ (some "2023a") = some "2023a")
      ∧ (set_toolchain_generation ["2022a", "2023a"] wFullTCs
          ⟨"GCCcore", "11.3.0", ⟨"system", "system"⟩, "Toolchain"⟩ (some "2021b") = none)
      ∧ set_toolchain_generation ["2022a", "2023a"] wFullTCs
          ⟨"GCCcore", "11.3.0", ⟨"system", "system"⟩, "Toolchain"⟩ (some "2023a") =
        set_toolchain_generation ["2022a", "2023a"] (fun _ => [])
          ⟨"zlib", "1.2.11", ⟨"system", "system"⟩, ""⟩ (some "2023a") := by
  refine ⟨?_, ?_, ?_⟩
  · exact (claim_C10_override_short_circuits ["2022a", "2023a"] wFullTCs wFullTCs
      ⟨"GCCcore", "11.3.0", ⟨"system", "system"⟩, "Toolchain"⟩
      ⟨"GCCcore", "11.3.0", ⟨"system", "system"⟩, "Toolchain"⟩ "2023a" (by decide)).1
      (by decide)
  · exact (claim_C10_override_short_circuits ["2022a", "2023a"] wFullTCs wFullTCs
      ⟨"GCCcore", "11.3.0", ⟨"system", "system"⟩, "Toolchain"⟩
      ⟨"GCCcore", "11.3.0", ⟨"system", "system"⟩, "Toolchain"⟩ "2021b" (by decide)).2.1
      (by decide)
  · exact (claim_C10_override_short_circuits ["2022a", "2023a"] wFullTCs (fun _ => [])
      ⟨"GCCcore", "11.3.0", ⟨"system", "system"⟩, "Toolchain"⟩
      ⟨"zlib", "1.2.11", ⟨"system", "system"⟩, ""⟩ "2023a" (by decide)).2.2

/-! ## Claim C9: `mk_job_name` -/

/-- `s ≠ ""` gives `s.isEmpty = false`, for reducing `pyTruthy`. -/
theorem isEmpty_eq_false_of_ne {s : String} (h : s ≠ "") : s.isEmpty = false := by
  cases hie : s.isEmpty
  · rfl
  · exact absurd ((String.isEmpty_iff s).mp hie) h

/-- `os.path.basename`: everything after the last `/` (computed over the
character list so that concrete instances reduce in the kernel). -/
def basename (p : String) : String :=
  ⟨p.data.foldl (fun acc c => if c = '/' then [] else acc ++ [c]) []⟩

/-- `re.sub('.eb$', '', s)` (softinstall.py line 125): the pattern matches a
trailing three-character run whose last two characters are `eb` and whose
first character is any character except a newline (`.` does not match `\n`;
`$` is modelled as end-of-string, adequate for file names).  On a match the
three characters are removed. -/
def re_sub_dot_eb (s : String) : String :=
  let cs := s.data
  if cs.length ≥ 3 ∧ cs.getLastD ' ' = 'b' ∧ cs.dropLast.getLastD ' ' = 'e'
      ∧ cs.dropLast.dropLast.getLastD ' ' ≠ '\n'
  then ⟨cs.dropLast.dropLast.dropLast⟩ else s

/-- `mk_job_name` of src/build_tools/softinstall.py.  The optional
architecture arguments use Python truthiness (`if host_arch:` and
`if target_arch and target_arch != host_arch:`). -/
def mk_job_name (easyconfig : String) (host_arch target_arch : Option String) : String :=
  let job_name := re_sub_dot_eb (basename easyconfig)
  let job_name := if pyTruthy host_arch then job_name ++ "-" ++ host_arch.getD "" else job_name
  if pyTruthy target_arch && decide (target_arch ≠ host_arch) then
    job_name ++ "-" ++ target_arch.getD ""
  else job_name

/-- C9: `mk_job_name` strips the directory prefix and a trailing `.eb`,
appends `-<hostArch>` exactly when a (truthy) host architecture is given and
`-<targetArch>` exactly when a (truthy) target architecture differing from
the host architecture is given; together with the three concrete examples of
the claim. -/
theorem claim_C9_mk_job_name
    (ec₁ h₁ t₁ : String) (hh₁ : h₁ ≠ "") (ht₁ : t₁ ≠ "") (hne₁ : t₁ ≠ h₁)
    (ec₂ h₂ : String) (hh₂ : h₂ ≠ "")
    (ec₃ h₃ : String) (hh₃ : h₃ ≠ "")
    (ec₄ : String) :
    mk_job_name ec₁ (some h₁) (some t₁) = re_sub_dot_eb (basename ec₁) ++ "-" ++ h₁ ++ "-" ++ t₁
      ∧ mk_job_name ec₂ (some h₂) (some h₂) = re_sub_dot_eb (basename ec₂) ++ "-" ++ h₂
      ∧ mk_job_name ec₃ (some h₃) none = re_sub_dot_eb (basename ec₃) ++ "-" ++ h₃
      ∧ mk_job_name ec₄ none none = re_sub_dot_eb (basename ec₄)
      ∧ mk_job_name "zlib-1.2.11.eb" none none = "zlib-1.2.11"
      ∧ mk_job_name "zlib-1.2.11.eb" (some "skylake") (some "skylake") = "zlib-1.2.11-skylake"
      ∧ mk_job_name "test/subdir/zlib-1.2.11.eb" (some "skylake") (some "ivybridge") =
          "zlib-1.2.11-skylake-ivybridge" := by
  refine ⟨?_, ?_, ?_, ?_, by decide, by decide, by decide⟩
  · have hne : (some t₁ : Option String) ≠ some h₁ := by simp [hne₁]
    simp [mk_job_name, pyTruthy, isEmpty_eq_false_of_ne hh₁, isEmpty_eq_false_of_ne ht₁, hne]
  · simp [mk_job_name, pyTruthy, isEmpty_eq_false_of_ne hh₂]
  · simp [mk_job_name, pyTruthy, isEmpty_eq_false_of_ne hh₃]
  · simp [mk_job_name, pyTruthy]

/-- Witness for C9 at concrete architectures and paths. -/
theorem claim_C9_mk_job_name_witness :
    mk_job_name "GCCcore-11.3.0.eb" (some "zen4") (some "broadwell") =
        re_sub_dot_eb (basename "GCCcore-11.3.0.eb") ++ "-" ++ "zen4" ++ "-" ++ "broadwell"
      ∧ mk_job_name "GCCcore-11.3.0.eb" (some "zen4") (some "zen4") =
          re_sub_dot_eb (basename "GCCcore-11.3.0.eb") ++ "-" ++ "zen4"
      ∧ mk_job_name "GCCcore-11.3.0.eb" (some "zen4") none =
          re_sub_dot_eb (basename "GCCcore-11.3.0.eb") ++ "-" ++ "zen4"
      ∧ mk_job_name "GCCcore-11.3.0.eb" none none = re_sub_dot_eb (basename "GCCcore-11.3.0.eb")
      ∧ mk_job_name "zlib-1.2.11.eb" none none = "zlib-1.2.11"
      ∧ mk_job_name "zlib-1.2.11.eb" (some "skylake") (some "skylake") = "zlib-1.2.11-skylake"
      ∧ mk_job_name "test/subdir/zlib-1.2.11.eb" (some "skylake") (some "ivybridge") =
          "zlib-1.2.11-skylake-ivybridge" :=
  claim_C9_mk_job_name "GCCcore-11.3.0.eb" "zen4" "broadwell" (by decide) (by decide) (by decide)
    "GCCcore-11.3.0.eb" "zen4" (by decide) "GCCcore-11.3.0.eb" "zen4" (by decide)
    "GCCcore-11.3.0.eb"

/-! ## Claim C7: the fetch-lock acquisition loop -/

/-- `wait_interval = 60` of `acquire_fetch_lock` (hooks_hydra.py). -/
def wait_interval : Nat := 60

/-- `wait_limit = 3600` of `acquire_fetch_lock` (hooks_hydra.py). -/
def wait_limit : Nat := 3600

/-- Outcome of the acquisition loop: the lock was acquired, or an
`EasyBuildError` was raised; either way the cumulative wait time (in
seconds) at that point is recorded. -/
inductive LockResult where
  | acquired (waitTime : Nat)
  | fatal (waitTime : Nat)
deriving DecidableEq, Repr

/-- The `while True` loop of `acquire_fetch_lock` (hooks_hydra.py lines
240-255).  `attempt w` tells whether the `lock.lock()` call made with
cumulative wait time `w` succeeds (`false` = `TimeOutError`); the lock
primitive itself is external (flufl.lock).  On a timeout with
`wait_time >= wait_limit` the loop raises; otherwise it sleeps
`wait_interval` seconds and retries with `wait_time += wait_interval`. -/
def acquire_fetch_lock_loop (attempt : Nat → Bool) (wait_time : Nat) : LockResult :=
  if attempt wait_time then .acquired wait_time
  else if wait_limit ≤ wait_time then .fatal wait_time
  else acquire_fetch_lock_loop attempt (wait_time + wait_interval)
termination_by wait_limit - wait_time
decreasing_by simp only [wait_limit, wait_interval] at *; omega

/-- Number of sleep-and-retry iterations performed before the outcome. -/
def LockResult.sleeps : LockResult → Nat
  | .acquired w => w / wait_interval
  | .fatal w => w / wait_interval

/-- Bounded-wait characterization of the loop from an arbitrary start time:
within `fuel` further iterations (when `fuel` covers the distance to
`wait_limit`) the loop either acquires at some `wait_time + 60 * j` or
raises after the wait time has reached the limit. -/
theorem acquire_fetch_lock_loop_bound (fuel : Nat) :
    ∀ (attempt : Nat → Bool) (w : Nat), wait_limit ≤ w + wait_interval * fuel →
      ∃ j, j ≤ fuel ∧
        (acquire_fetch_lock_loop attempt w = .acquired (w + wait_interval * j)
          ∨ (acquire_fetch_lock_loop attempt w = .fatal (w + wait_interval * j)
              ∧ wait_limit ≤ w + wait_interval * j)) := by
  induction fuel with
  | zero =>
    intro attempt w hw
    simp only [Nat.mul_zero, Nat.add_zero] at hw
    refine ⟨0, Nat.le_refl 0, ?_⟩
    rw [acquire_fetch_lock_loop]
    cases hat : attempt w with
    | true => simp
    | false => simp [hw]
  | succ n ih =>
    intro attempt w hw
    rw [acquire_fetch_lock_loop]
    cases hat : attempt w with
    | true => exact ⟨0, Nat.zero_le _, Or.inl (by simp)⟩
    | false =>
      by_cases hlim : wait_limit ≤ w
      · exact ⟨0, Nat.zero_le _, Or.inr (by simp [hlim])⟩
      · obtain ⟨j, hj, hres⟩ := ih attempt (w + wait_interval)
          (by simp only [wait_interval, wait_limit] at *; omega)
        refine ⟨j + 1, Nat.succ_le_succ hj, ?_⟩
        have harith : w + wait_interval + wait_interval * j = w + wait_interval * (j + 1) := by
          ring
        rw [harith] at hres
        simpa [hlim] using hres

/-- C7: fetch-lock acquisition always terminates.  Starting from
`wait_time = 0` (hooks_hydra.py line 233) it either acquires the lock after
`k ≤ 3600/60 = 60` sleep-and-retry iterations (cumulative wait `60 * k`
seconds), or raises the fatal `EasyBuildError` exactly when the cumulative
wait time has reached the hard ceiling of `3600` seconds, after 60 sleeps;
in every case the number of sleep-and-retry iterations is at most 60. -/
theorem claim_C7_fetch_lock_terminates (attempt : Nat → Bool) :
    ((∃ k, k ≤ wait_limit / wait_interval
        ∧ acquire_fetch_lock_loop attempt 0 = .acquired (wait_interval * k))
      ∨ acquire_fetch_lock_loop attempt 0 = .fatal wait_limit)
    ∧ (acquire_fetch_lock_loop attempt 0).sleeps ≤ wait_limit / wait_interval := by
  obtain ⟨j, hj, hres⟩ := acquire_fetch_lock_loop_bound 60 attempt 0 (by decide)
  simp only [Nat.zero_add] at hres
  have hdiv : wait_limit / wait_interval = 60 := by decide
  rcases hres with hacq | ⟨hfat, hlim⟩
  · refine ⟨Or.inl ⟨j, by omega, hacq⟩, ?_⟩
    rw [hacq]
    simp only [LockResult.sleeps, wait_interval, wait_limit]
    omega
  · have hj60 : j = 60 := by
      simp only [wait_interval, wait_limit] at hlim
      omega
    subst hj60
    refine ⟨Or.inr (by simpa using hfat), ?_⟩
    rw [show wait_interval * 60 = wait_limit by decide] at hfat
    rw [hfat]
    simp [LockResult.sleeps, wait_interval, wait_limit]

/-! ## Claim C8: cross-compilation placement check in bin/submit_build.py -/

/-- One entry of `ARCHS` (src/build_tools/clusters.py): default flag,
optimization flags, and the default CPU/GPU partition of the
architecture. -/
structure ArchSpec where
  isDefault : Bool
  opt : String
  cpuPartition : Option String
  gpuPartition : Option String
deriving DecidableEq, Repr

/-- The static `ARCHS` table of src/build_tools/clusters.py. -/
def ARCHS : List (String × ArchSpec) :=
  [("broadwell", ⟨true, "mavx2", some "pascal_gpu", some "pascal_gpu"⟩),
   ("haswell-ib", ⟨false, "mavx2", some "haswell_mpi", none⟩),
   ("skylake", ⟨true, "mavx512", some "skylake", none⟩),
   ("skylake-ib", ⟨true, "mavx512", some "skylake_mpi", none⟩),
   ("zen2-ib", ⟨true, "Intel:march=core-avx2;GCC:mavx2", some "ampere_gpu", some "ampere_gpu"⟩),
   ("zen3", ⟨false, "Intel:march=core-avx2;GCC:mavx2", some "zen3", none⟩),
   ("zen3-ib", ⟨false, "Intel:march=core-avx2;GCC:mavx2", some "zen3_mpi", none⟩),
   ("zen4", ⟨true, "Intel:march=rocketlake;GCC:znver4", some "zen4", none⟩)]

/-- One entry of `PARTITIONS` (src/build_tools/clusters.py). -/
structure PartSpec where
  cluster : String
  arch : String
deriving DecidableEq, Repr

/-- The static `PARTITIONS` table of src/build_tools/clusters.py. -/
def PARTITIONS : List (String × PartSpec) :=
  [("ampere_gpu", ⟨"hydra", "zen2-ib"⟩),
   ("haswell_mpi", ⟨"chimera", "haswell-ib"⟩),
   ("pascal_gpu", ⟨"hydra", "broadwell"⟩),
   ("skylake", ⟨"hydra", "skylake"⟩),
   ("skylake_mpi", ⟨"hydra", "skylake-ib"⟩),
   ("zen3", ⟨"manticore", "zen3"⟩),
   ("zen3_mpi", ⟨"manticore", "zen3-ib"⟩),
   ("zen4", ⟨"hydra", "zen4"⟩)]

/-- `DEFAULT_ARCHS` of bin/submit_build.py: archs flagged `default`. -/
def DEFAULT_ARCHS : List String := (ARCHS.filter (·.2.isDefault)).map (·.1)

/-- The command-line options of bin/submit_build.py that feed the
host-placement logic; an empty list models an absent (`None`) list option. -/
structure SubmitOpts where
  local_exec : Bool
  archs : List String
  partitions : List String
  cross_compile : Option String
deriving DecidableEq, Repr

/-- Observable outcome of the placement slice of `main` in
bin/submit_build.py: whether `sys.exit(1)` was reached, the `logger.error`
messages emitted, the deduplicated `(host_arch, host_partition)` build
hosts, and the hosts for which a build job is then generated and
submitted by the final loop. -/
structure PlacementResult where
  exitCode : Option Nat
  errorsLogged : List String
  buildHosts : List (String × String)
  submittedJobs : List (String × String)
deriving DecidableEq, Repr

/-- The `logger.error` message of submit_build.py line 164. -/
def crossCompileMsg : String := "Cross-compilation only supports 1 build architecture (--arch)"

/-- The placement logic of `main` (bin/submit_build.py lines 127-170)
followed by the per-host submission loop (lines 240-340).

The steps between the cross-compilation check and the loop (toolchain
determination, source fetch) are placement-independent and modelled as
succeeding; each loop iteration submits one job since every selected host
partition is non-empty.  Python's set comprehension at line 157 is modelled
as filter-then-dedup (first occurrence kept).  In the `--partition` branch
the source itself indexes the partition *name* string with `['arch']`
(line 149, a latent TypeError); the model uses the evident table lookup,
and no theorem below exercises that branch. -/
def submit_build_placement (localArch : String) (opts : SubmitOpts) : PlacementResult :=
  let arch_stack :=
    if opts.local_exec then [localArch]
    else if opts.archs ≠ [] then opts.archs
    else DEFAULT_ARCHS
  let unknown_archs :=
    if ¬opts.local_exec ∧ opts.archs ≠ [] then
      opts.archs.filter (fun a => (ARCHS.lookup a).isNone)
    else []
  if unknown_archs ≠ [] then
    { exitCode := some 1, errorsLogged := ["Unknown archs: " ++ ", ".intercalate unknown_archs],
      buildHosts := [], submittedJobs := [] }
  else
    let build_hosts :=
      if opts.partitions ≠ [] then
        let partition_stack := opts.partitions.filter (fun p => (PARTITIONS.lookup p).isSome)
        let arch_stack := partition_stack.map (fun p => (((PARTITIONS.lookup p).map (·.arch)).getD ""))
        arch_stack.zip partition_stack
      else
        arch_stack.map (fun a => (a, ((ARCHS.lookup a).map (·.cpuPartition)).getD none |>.getD ""))
    let build_hosts := (build_hosts.filter (fun h => ¬h.1.isEmpty ∧ ¬h.2.isEmpty)).dedup
    match opts.cross_compile with
    | some target =>
      -- lines 162-170: the ambiguity error is logged but there is no exit
      let errs := if build_hosts.length > 1 then [crossCompileMsg] else []
      if (ARCHS.lookup target).isNone then
        { exitCode := some 1, errorsLogged := errs ++ ["Unknown target arch: " ++ target],
          buildHosts := build_hosts, submittedJobs := [] }
      else
        { exitCode := none, errorsLogged := errs,
          buildHosts := build_hosts, submittedJobs := build_hosts }
    | none =>
      { exitCode := none, errorsLogged := [],
        buildHosts := build_hosts, submittedJobs := build_hosts }

/-- C8 (code bug): requesting the cross-compilation target `zen4` with the
two build hosts selected by `--arch skylake --arch broadwell` makes
submit_build.py log the placement error, yet it does not exit: build jobs
are still generated and submitted for both hosts (there is no `sys.exit(1)`
after the `logger.error` at line 164, unlike every other fatal check in
`main`).  For contrast, an unknown cross-compilation target does exit
fatally before any submission, and a single-host cross-compilation logs no
placement error. -/
theorem claim_C8_cross_compile_error_not_fatal :
    (submit_build_placement "skylake"
        ⟨false, ["skylake", "broadwell"], [], some "zen4"⟩ =
      { exitCode := none, errorsLogged := [crossCompileMsg],
        buildHosts := [("skylake", "skylake"), ("broadwell", "pascal_gpu")],
        submittedJobs := [("skylake", "skylake"), ("broadwell", "pascal_gpu")] })
    ∧ (submit_build_placement "skylake"
        ⟨false, ["skylake", "broadwell"], [], some "epyc"⟩).exitCode = some 1
    ∧ (submit_build_placement "skylake"
        ⟨false, ["skylake", "broadwell"], [], some "epyc"⟩).submittedJobs = []
    ∧ (submit_build_placement "skylake" ⟨false, ["skylake"], [], some "zen4"⟩).errorsLogged = [] := by
  decide

/-! ## Claims C3, C4, C5: the phase-2 reconciliation scripts

The reconciliation logic lives in generated bash: the script string built by
`rsync_copy` (bwraptools.py lines 99-111) and the inline bwrap block of the
`BUILD_JOB` template (jobtemplate.py lines 108-122).  Both are straight-line
command sequences, modelled as `List BCmd` interpreted sequentially over an
abstract filesystem state; `test C || { echo MSG; exit 1; }` and
`CMD || { echo MSG; exit 1; }` abort with exit code 1 and the message.  The
outcomes of the three synchronization commands (the two rsync invocations
and the `cp -p` of the module file) are part of the state; `mkdir`,
`mktemp`, `ln -sf` and `mv -f` are modelled as always performing their
effect, as the scripts assume (none of them is error-checked there). -/

/-- What the published module symlink can point to: the freshly copied
destination module file, or whatever it pointed to before the run. -/
inductive SymTarget where
  | destModFile
  | oldTarget
deriving DecidableEq, Repr

/-- Abstract filesystem and environment state for the reconciliation
scripts. -/
structure BState where
  /-- staged software dir exists (`test -d`) -/
  srcDirExists : Bool
  /-- staged software dir is non-empty (`test -n "$(ls -A ...)"`) -/
  srcDirNonEmpty : Bool
  /-- staged module file exists and is non-empty (`test -s`) -/
  srcModNonEmpty : Bool
  /-- staged module symlink points at the staged module file (`readlink` test) -/
  srcSymlinkCorrect : Bool
  /-- destination software tree has been synchronized -/
  destSoftSynced : Bool
  /-- the destination module file exists -/
  destModFileExists : Bool
  /-- target of the published module symlink (`none` = absent or not a symlink) -/
  destSymlink : Option SymTarget
  /-- the pre-existing symlink target (if any) exists; never touched by the scripts -/
  oldTargetExists : Bool
  /-- the `mktemp` file exists -/
  tempCreated : Bool
  /-- the temp path is a symlink to the destination module file path -/
  tempLinksToDestMod : Bool
  /-- the staging state (software dir, module file, symlink) has been removed -/
  stagingRemoved : Bool
  /-- environment: the software-tree rsync will succeed -/
  rsyncSoftOk : Bool
  /-- environment: the module-file rsync will succeed -/
  rsyncModOk : Bool
  /-- environment: the module-file `cp -p` will succeed -/
  cpOk : Bool
  /-- bookkeeping: the software-tree rsync was executed -/
  ranRsyncSoft : Bool
  /-- bookkeeping: the module-file rsync was executed -/
  ranRsyncMod : Bool
  /-- bookkeeping: the module-file `cp -p` was executed -/
  ranCp : Bool
deriving DecidableEq, Repr

/-- The `test` conditions appearing in the two scripts. -/
inductive BCond where
  | srcDirExists
  | srcDirNonEmpty
  | srcModNonEmpty
  | srcSymlinkCorrect
  | destSymlinkCorrect
deriving DecidableEq, Repr

/-- Evaluate a `test` condition in a state.  `destSymlinkCorrect` is
`test $(readlink "$dest_modsymlink") == "$dest_modfile"`: a pure string
comparison of the link target, which does not check that the target file
exists. -/
def evalCond (s : BState) : BCond → Bool
  | .srcDirExists => s.srcDirExists
  | .srcDirNonEmpty => s.srcDirNonEmpty
  | .srcModNonEmpty => s.srcModNonEmpty
  | .srcSymlinkCorrect => s.srcSymlinkCorrect
  | .destSymlinkCorrect => decide (s.destSymlink = some .destModFile)

/-- The commands of the reconciliation scripts. -/
inductive BCmd where
  | echo (msg : String)
  /-- `dest_mod_file=$(<"..._fp.txt")` -/
  | readVar
  /-- `mkdir -p $(dirname ...) $(dirname ...)` -/
  | mkdirDests
  /-- `tempfile=$(mktemp -p /tmp)` -/
  | mktempFile
  /-- `test COND || { echo MSG; exit 1; }` -/
  | require (c : BCond) (msg : String)
  /-- `rsync -a --link-dest=... SRC/ DEST/ || { echo MSG; exit 1; }` -/
  | rsyncSoftware (msg : String)
  /-- `rsync -a --link-dest=... SRC_MOD "$dest_mod_file" || { echo MSG; exit 1; }` -/
  | rsyncModule (msg : String)
  /-- `cp -p "$source_modfile" "$dest_modfile"` — exit status unchecked -/
  | cpModFile
  /-- `ln -sf "$dest_modfile" "$tempfile"` -/
  | lnTempToDestModFile
  /-- `mv -f "$tempfile" "$dest_modsymlink"` -/
  | mvTempOverSymlink
  /-- `rm -rf` of the staging software dir and module file(s) -/
  | rmStaging
deriving DecidableEq, Repr

/-- One command: the next state, plus `some (code, msg)` when the script
aborts there. -/
def step (s : BState) (c : BCmd) : BState × Option (Nat × String) :=
  match c with
  | .echo _ => (s, none)
  | .readVar => (s, none)
  | .mkdirDests => (s, none)
  | .mktempFile => ({ s with tempCreated := true }, none)
  | .require cond msg => if evalCond s cond then (s, none) else (s, some (1, msg))
  | .rsyncSoftware msg =>
    if s.rsyncSoftOk then ({ s with ranRsyncSoft := true, destSoftSynced := true }, none)
    else ({ s with ranRsyncSoft := true }, some (1, msg))
  | .rsyncModule msg =>
    if s.rsyncModOk then ({ s with ranRsyncMod := true, destModFileExists := true }, none)
    else ({ s with ranRsyncMod := true }, some (1, msg))
  | .cpModFile =>
    if s.cpOk then ({ s with ranCp := true, destModFileExists := true }, none)
    else ({ s with ranCp := true }, none)
  | .lnTempToDestModFile => ({ s with tempLinksToDestMod := true }, none)
  | .mvTempOverSymlink =>
    ({ s with destSymlink := if s.tempLinksToDestMod then some .destModFile else none,
              tempCreated := false, tempLinksToDestMod := false }, none)
  | .rmStaging =>
    ({ s with srcDirExists := false, srcDirNonEmpty := false, srcModNonEmpty := false,
              srcSymlinkCorrect := false, stagingRemoved := true }, none)

/-- Sequential execution with abort-on-error: final state and outcome
(`none` = the script ran to the end with exit code 0). -/
def run : List BCmd → BState → BState × Option (Nat × String)
  | [], s => (s, none)
  | c :: cs, s =>
    match step s c with
    | (s', none) => run cs s'
    | (s', some e) => (s', some e)

/-- All states the execution passes through (including the initial and the
final one). -/
def traceStates : List BCmd → BState → List BState
  | [], s => [s]
  | c :: cs, s =>
    match step s c with
    | (s', none) => s :: traceStates cs s'
    | (s', some _) => [s, s']

/-- Diagnostic of bwraptools.py line 105 / jobtemplate.py line 111. -/
def msgSrcDirMissing : String := "ERROR: source install dir does not exist"

/-- Diagnostic of bwraptools.py line 106 / jobtemplate.py line 112. -/
def msgSrcDirEmpty : String := "ERROR: source install dir is empty"

/-- Diagnostic of bwraptools.py line 107 / jobtemplate.py line 113. -/
def msgSrcModMissing : String := "ERROR: source module file does not exist or is empty"

/-- The script string built by `rsync_copy` (bwraptools.py lines 99-111),
line by line. -/
def rsyncCopyScript : List BCmd :=
  [.readVar,
   .echo "source install dir: ...",
   .echo "destination install dir: ...",
   .echo "source module file: ...",
   .echo "destination module file: ...",
   .require .srcDirExists msgSrcDirMissing,
   .require .srcDirNonEmpty msgSrcDirEmpty,
   .require .srcModNonEmpty msgSrcModMissing,
   .rsyncSoftware "ERROR: failed to copy source install dir",
   .rsyncModule "ERROR: failed to copy source module file",
   .rmStaging]

/-- The inline bwrap reconciliation block of the `BUILD_JOB` template
(jobtemplate.py lines 108-122), line by line. -/
def buildJobBwrapScript : List BCmd :=
  [.echo "source/dest install dir",
   .echo "source/dest module file",
   .echo "source/dest module symlink",
   .require .srcDirExists msgSrcDirMissing,
   .require .srcDirNonEmpty msgSrcDirEmpty,
   .require .srcModNonEmpty msgSrcModMissing,
   .require .srcSymlinkCorrect "ERROR: source module symlink does not link to correct file",
   .mkdirDests,
   .mktempFile,
   .rsyncSoftware "ERROR: failed to copy install dir",
   .cpModFile,
   .lnTempToDestModFile,
   .mvTempOverSymlink,
   .require .destSymlinkCorrect "ERROR: failed to create symlink to module file",
   .rmStaging]

/-- The published symlink, when present, points at an existing file. -/
def symlinkValid (s : BState) : Bool :=
  match s.destSymlink with
  | none => true
  | some .destModFile => s.destModFileExists
  | some .oldTarget => s.oldTargetExists

/-- C3: in both phase-2 scripts, the preconditions are checked in the fixed
order (staged software dir exists; staged software dir non-empty; staged
module file exists and non-empty), each failure aborts with exit code 1 and
its own distinct diagnostic before any synchronization command runs — the
rsync/cp bookkeeping flags are left exactly as they started.  In particular
an empty-but-present staged software dir yields the "empty" message and a
missing module file aborts with the module-file message with no rsync
attempted. -/
theorem claim_C3_precondition_order
    (s₁ s₂ s₃ t₁ t₂ t₃ : BState)
    (h₁ : s₁.srcDirExists = false)
    (h₂a : s₂.srcDirExists = true) (h₂b : s₂.srcDirNonEmpty = false)
    (h₃a : s₃.srcDirExists = true) (h₃b : s₃.srcDirNonEmpty = true)
    (h₃c : s₃.srcModNonEmpty = false)
    (g₁ : t₁.srcDirExists = false)
    (g₂a : t₂.srcDirExists = true) (g₂b : t₂.srcDirNonEmpty = false)
    (g₃a : t₃.srcDirExists = true) (g₃b : t₃.srcDirNonEmpty = true)
    (g₃c : t₃.srcModNonEmpty = false) :
    ((run rsyncCopyScript s₁).2 = some (1, msgSrcDirMissing)
      ∧ (run rsyncCopyScript s₁).1.ranRsyncSoft = s₁.ranRsyncSoft
      ∧ (run rsyncCopyScript s₁).1.ranRsyncMod = s₁.ranRsyncMod)
    ∧ ((run rsyncCopyScript s₂).2 = some (1, msgSrcDirEmpty)
      ∧ (run rsyncCopyScript s₂).1.ranRsyncSoft = s₂.ranRsyncSoft
      ∧ (run rsyncCopyScript s₂).1.ranRsyncMod = s₂.ranRsyncMod)
    ∧ ((run rsyncCopyScript s₃).2 = some (1, msgSrcModMissing)
      ∧ (run rsyncCopyScript s₃).1.ranRsyncSoft = s₃.ranRsyncSoft
      ∧ (run rsyncCopyScript s₃).1.ranRsyncMod = s₃.ranRsyncMod)
    ∧ ((run buildJobBwrapScript t₁).2 = some (1, msgSrcDirMissing)
      ∧ (run buildJobBwrapScript t₁).1.ranRsyncSoft = t₁.ranRsyncSoft
      ∧ (run buildJobBwrapScript t₁).1.ranCp = t₁.ranCp)
    ∧ ((run buildJobBwrapScript t₂).2 = some (1, msgSrcDirEmpty)
      ∧ (run buildJobBwrapScript t₂).1.ranRsyncSoft = t₂.ranRsyncSoft
      ∧ (run buildJobBwrapScript t₂).1.ranCp = t₂.ranCp)
    ∧ ((run buildJobBwrapScript t₃).2 = some (1, msgSrcModMissing)
      ∧ (run buildJobBwrapScript t₃).1.ranRsyncSoft = t₃.ranRsyncSoft
      ∧ (run buildJobBwrapScript t₃).1.ranCp = t₃.ranCp)
    ∧ (msgSrcDirMissing ≠ msgSrcDirEmpty ∧ msgSrcDirMissing ≠ msgSrcModMissing
      ∧ msgSrcDirEmpty ≠ msgSrcModMissing) := by
  refine ⟨⟨?_, ?_, ?_⟩, ⟨?_, ?_, ?_⟩, ⟨?_, ?_, ?_⟩, ⟨?_, ?_, ?_⟩, ⟨?_, ?_, ?_⟩, ⟨?_, ?_, ?_⟩,
    by decide⟩ <;>
    simp [rsyncCopyScript, buildJobBwrapScript, run, step, evalCond, h₁, h₂a, h₂b, h₃a, h₃b,
      h₃c, g₁, g₂a, g₂b, g₃a, g₃b, g₃c]

/-- Entry state for the reconciliation witnesses: staged artifacts all in
place, destination untouched, every synchronization command will succeed. -/
def wStateOk : BState where
  srcDirExists := true
  srcDirNonEmpty := true
  srcModNonEmpty := true
  srcSymlinkCorrect := true
  destSoftSynced := false
  destModFileExists := false
  destSymlink := none
  oldTargetExists := false
  tempCreated := false
  tempLinksToDestMod := false
  stagingRemoved := false
  rsyncSoftOk := true
  rsyncModOk := true
  cpOk := true
  ranRsyncSoft := false
  ranRsyncMod := false
  ranCp := false

/-- Witness for C3 at concrete states: a missing staged dir, an
empty-but-present staged dir, and a missing staged module file each abort
with their own message and no rsync/cp executed, in both scripts. -/
theorem claim_C3_precondition_order_witness :
    ((run rsyncCopyScript { wStateOk with srcDirExists := false }).2 =
        some (1, msgSrcDirMissing)
      ∧ (run rsyncCopyScript { wStateOk with srcDirExists := false }).1.ranRsyncSoft = false
      ∧ (run rsyncCopyScript { wStateOk with srcDirExists := false }).1.ranRsyncMod = false)
    ∧ ((run rsyncCopyScript { wStateOk with srcDirNonEmpty := false }).2 =
        some (1, msgSrcDirEmpty)
      ∧ (run rsyncCopyScript { wStateOk with srcDirNonEmpty := false }).1.ranRsyncSoft = false
      ∧ (run rsyncCopyScript { wStateOk with srcDirNonEmpty := false }).1.ranRsyncMod = false)
    ∧ ((run rsyncCopyScript { wStateOk with srcModNonEmpty := false }).2 =
        some (1, msgSrcModMissing)
      ∧ (run rsyncCopyScript { wStateOk with srcModNonEmpty := false }).1.ranRsyncSoft = false
      ∧ (run rsyncCopyScript { wStateOk with srcModNonEmpty := false }).1.ranRsyncMod = false)
    ∧ ((run buildJobBwrapScript { wStateOk with srcDirExists := false }).2 =
        some (1, msgSrcDirMissing)
      ∧ (run buildJobBwrapScript { wStateOk with srcDirExists := false }).1.ranRsyncSoft = false
      ∧ (run buildJobBwrapScript { wStateOk with srcDirExists := false }).1.ranCp = false)
    ∧ ((run buildJobBwrapScript { wStateOk with srcDirNonEmpty := false }).2 =
        some (1, msgSrcDirEmpty)
      ∧ (run buildJobBwrapScript { wStateOk with srcDirNonEmpty := false }).1.ranRsyncSoft = false
      ∧ (run buildJobBwrapScript { wStateOk with srcDirNonEmpty := false }).1.ranCp = false)
    ∧ ((run buildJobBwrapScript { wStateOk with srcModNonEmpty := false }).2 =
        some (1, msgSrcModMissing)
      ∧ (run buildJobBwrapScript { wStateOk with srcModNonEmpty := false }).1.ranRsyncSoft = false
      ∧ (run buildJobBwrapScript { wStateOk with srcModNonEmpty := false }).1.ranCp = false)
    ∧ (msgSrcDirMissing ≠ msgSrcDirEmpty ∧ msgSrcDirMissing ≠ msgSrcModMissing
      ∧ msgSrcDirEmpty ≠ msgSrcModMissing) :=
  claim_C3_precondition_order
    { wStateOk with srcDirExists := false }
    { wStateOk with srcDirNonEmpty := false }
    { wStateOk with srcModNonEmpty := false }
    { wStateOk with srcDirExists := false }
    { wStateOk with srcDirNonEmpty := false }
    { wStateOk with srcModNonEmpty := false }
    rfl rfl rfl rfl rfl rfl rfl rfl rfl rfl rfl rfl

/-- Entry state refuting C4: staged artifacts in place, both rsync commands
will succeed, but the (unchecked) `cp -p` of the module file will fail. -/
def cexStateC4 : BState := { wStateOk with cpOk := false }

/-- Counterexample to C4: in the `BUILD_JOB` inline reconciliation, a failed
module-file copy (`cp -p`, jobtemplate.py line 118, exit status unchecked)
does not make the script exit non-zero and does not keep the staging state:
the run finishes with exit code 0, the staging state is removed, and the
destination module file was never created — refuting both directions of the
claimed equivalence. -/
theorem claim_C4_counterexample_cp_unchecked :
    cexStateC4.cpOk = false
      ∧ (run buildJobBwrapScript cexStateC4).2 = none
      ∧ (run buildJobBwrapScript cexStateC4).1.ranCp = true
      ∧ (run buildJobBwrapScript cexStateC4).1.destModFileExists = false
      ∧ (run buildJobBwrapScript cexStateC4).1.stagingRemoved = true := by
  decide

/-- C4 as amended: in the `rsync_copy` script, the staging state is removed
iff both synchronization steps (software-tree rsync, then module-file
rsync) succeed, and any rsync failure exits 1 leaving the staging state
intact.  In the `BUILD_JOB` inline script, the staging state is removed iff
the software-tree rsync succeeds: a software rsync failure exits 1 and
leaves staging intact, but the module-file `cp` is unchecked, so its
outcome influences neither the exit code nor the removal. -/
theorem claim_C4_staging_removal_iff_sync
    (s u : BState)
    (hs₁ : s.srcDirExists = true) (hs₂ : s.srcDirNonEmpty = true)
    (hs₃ : s.srcModNonEmpty = true) (hs₄ : s.stagingRemoved = false)
    (hu₁ : u.srcDirExists = true) (hu₂ : u.srcDirNonEmpty = true)
    (hu₃ : u.srcModNonEmpty = true) (hu₄ : u.srcSymlinkCorrect = true)
    (hu₅ : u.stagingRemoved = false) :
    ((run rsyncCopyScript s).1.stagingRemoved = (s.rsyncSoftOk && s.rsyncModOk)
      ∧ (run rsyncCopyScript s).2 =
          (if s.rsyncSoftOk then
            if s.rsyncModOk then none else some (1, "ERROR: failed to copy source module file")
          else some (1, "ERROR: failed to copy source install dir")))
    ∧ ((run buildJobBwrapScript u).1.stagingRemoved = u.rsyncSoftOk
      ∧ (run buildJobBwrapScript u).2 =
          (if u.rsyncSoftOk then none else some (1, "ERROR: failed to copy install dir"))) := by
  cases hso : s.rsyncSoftOk <;> cases hsm : s.rsyncModOk <;>
    cases huo : u.rsyncSoftOk <;> cases hcp : u.cpOk <;>
    simp [rsyncCopyScript, buildJobBwrapScript, run, step, evalCond,
      hs₁, hs₂, hs₃, hs₄, hu₁, hu₂, hu₃, hu₄, hu₅, hso, hsm, huo, hcp]

/-- Witness for the amended C4: with every synchronization succeeding, both
scripts finish with exit code 0 and remove the staging state; with a failing
software rsync, the `rsync_copy` script exits 1 and keeps the staging
state. -/
theorem claim_C4_staging_removal_iff_sync_witness :
    ((run rsyncCopyScript wStateOk).1.stagingRemoved = (wStateOk.rsyncSoftOk && wStateOk.rsyncModOk)
      ∧ (run rsyncCopyScript wStateOk).2 =
          (if wStateOk.rsyncSoftOk then
            if wStateOk.rsyncModOk then none
            else some (1, "ERROR: failed to copy source module file")
          else some (1, "ERROR: failed to copy source install dir")))
    ∧ ((run buildJobBwrapScript wStateOk).1.stagingRemoved = wStateOk.rsyncSoftOk
      ∧ (run buildJobBwrapScript wStateOk).2 =
          (if wStateOk.rsyncSoftOk then none
          else some (1, "ERROR: failed to copy install dir"))) :=
  claim_C4_staging_removal_iff_sync wStateOk wStateOk
    rfl rfl rfl rfl rfl rfl rfl rfl rfl

/-- Entry state refuting C5: identical scenario to the C4 counterexample
(failing unchecked `cp -p`), with an initially valid (absent) published
symlink. -/
def cexStateC5 : BState := { wStateOk with cpOk := false }

/-- Counterexample to C5: when the unchecked module-file `cp -p` fails, the
execution of the `BUILD_JOB` reconciliation reaches a state in which the
published symlink points at the (never created) destination module file —
a non-existent target — even though the initial state was valid. -/
theorem claim_C5_counterexample_dangling_symlink :
    symlinkValid cexStateC5 = true
      ∧ (∃ u ∈ traceStates buildJobBwrapScript cexStateC5, symlinkValid u = false)
      ∧ (run buildJobBwrapScript cexStateC5).1.destSymlink = some SymTarget.destModFile
      ∧ (run buildJobBwrapScript cexStateC5).1.destModFileExists = false := by
  decide

/-- C5 as amended: in the `BUILD_JOB` reconciliation the copy of the
destination module file (index 10) strictly precedes the symlink update —
the `ln`-to-temp (index 11) and the `mv` over the published path (index 12);
the `mv` of the temp link is the only command that modifies the published
symlink, and no such command occurs among the first 12 commands.  Provided
the module-file copy succeeds, no step of the script leaves the published
symlink pointing at a non-existent target (the counterexample above shows
this proviso is necessary: an unchecked `cp` failure leaves it dangling). -/
theorem claim_C5_symlink_swap_safety
    (s : BState) (hcp : s.cpOk = true) (hinit : symlinkValid s = true) :
    buildJobBwrapScript[10]? = some BCmd.cpModFile
      ∧ buildJobBwrapScript[11]? = some BCmd.lnTempToDestModFile
      ∧ buildJobBwrapScript[12]? = some BCmd.mvTempOverSymlink
      ∧ ((buildJobBwrapScript.take 12).all (fun c => c ≠ BCmd.mvTempOverSymlink)) = true
      ∧ (∀ u c, c ≠ BCmd.mvTempOverSymlink → (step u c).1.destSymlink = u.destSymlink)
      ∧ (∀ u ∈ traceStates buildJobBwrapScript s, symlinkValid u = true) := by
  refine ⟨by decide, by decide, by decide, by decide, ?_, ?_⟩
  · intro u c hc
    cases c with
    | mvTempOverSymlink => exact absurd rfl hc
    | require cond msg => by_cases h : evalCond u cond <;> simp [step, h]
    | rsyncSoftware msg => by_cases h : u.rsyncSoftOk <;> simp [step, h]
    | rsyncModule msg => by_cases h : u.rsyncModOk <;> simp [step, h]
    | cpModFile => by_cases h : u.cpOk <;> simp [step, h]
    | echo msg => simp [step]
    | readVar => simp [step]
    | mkdirDests => simp [step]
    | mktempFile => simp [step]
    | lnTempToDestModFile => simp [step]
    | rmStaging => simp [step]
  · rcases s with ⟨sde, sdn, smn, ssc, dss, dmf, dsl, ote, tc, tl, sr, rso, rmo, cpo, rrs, rrm, rcp⟩
    simp only [BState.cpOk] at hcp
    subst hcp
    cases sde <;> cases sdn <;> cases smn <;> cases ssc <;> cases rso <;>
      rcases dsl with _ | (_ | _) <;>
      simp_all [buildJobBwrapScript, traceStates, step, evalCond, symlinkValid]

/-- Witness for the amended C5 at the all-succeeding entry state. -/
theorem claim_C5_symlink_swap_safety_witness :
    buildJobBwrapScript[10]? = some BCmd.cpModFile
      ∧ buildJobBwrapScript[11]? = some BCmd.lnTempToDestModFile
      ∧ buildJobBwrapScript[12]? = some BCmd.mvTempOverSymlink
      ∧ ((buildJobBwrapScript.take 12).all (fun c => c ≠ BCmd.mvTempOverSymlink)) = true
      ∧ (∀ u c, c ≠ BCmd.mvTempOverSymlink → (step u c).1.destSymlink = u.destSymlink)
      ∧ (∀ u ∈ traceStates buildJobBwrapScript wStateOk, symlinkValid u = true) :=
  claim_C5_symlink_swap_safety wStateOk rfl rfl
